import Mathlib

/-
  Verification development for the BioLit-Miner repository.

  The embedding models the three LLM-facing pipelines of the repository
  (`method_extractor.py`, `code_generator.py`, `qa_interface.py`) as pure
  Lean functions.  Strings are modelled as `List Char` (`Str`), the remote
  LLM gateway (`anthropic` client) as a function argument
  `gw : Str → Except Str Str` from the prompt to either an error message or
  the reply text, and the standard-library JSON codec (`json.loads`) as an
  executable fuel-based parser `jparse` over a JSON value type `J`.

  Modelling notes, referenced from the definitions below:
  * Python raises untyped `Exception`s carrying message strings; errors are
    modelled as `Except Str` values whose payload keeps the message text the
    source formats (trailing interpolated exception details are elided where
    no property depends on them; properties only inspect message prefixes).
  * Python dataclasses do not enforce their field annotations at run time.
    The record constructors below (`mkComputationalMethod`, `mkDataset`,
    `mkWorkflow`) additionally require the field values to conform to the
    declared annotation types (strings / lists of strings / string maps);
    theorems whose truth could depend on nonconforming values carry the
    conformance as an explicit hypothesis.
  * Regular-expression calls (`re.search` with `re.DOTALL` and optionally
    `re.IGNORECASE`) are modelled by direct leftmost-match scanning
    functions (`scanFenced`, `findLabelCI`, `secTake`) that mirror the
    specific patterns used in `code_generator.py`.
-/

namespace BioLit

/-- Strings are modelled as character lists. -/
abbrev Str := List Char

/-- Characters the Python runtime treats as whitespace for `str.strip`
    and for the regex class `\s` (ASCII subset; the source data is ASCII). -/
def pySpace (c : Char) : Bool :=
  c = ' ' || c = '\t' || c = '\n' || c = '\r' || c = '\x0b' || c = '\x0c'

/-- Python `str.strip()`: drop whitespace from both ends. -/
def pyStrip (s : Str) : Str :=
  ((s.dropWhile pySpace).reverse.dropWhile pySpace).reverse

/-- Python `sep.join(parts)`. -/
def joinSep (sep : Str) : List Str → Str
  | [] => []
  | [x] => x
  | x :: y :: xs => x ++ sep ++ joinSep sep (y :: xs)

/-- Python `str(n)` for a natural number. -/
def natStr (n : Nat) : Str := (Nat.repr n).data

/-- Case-insensitive prefix test (ASCII lowering), modelling `re.IGNORECASE`
    literal matching. -/
def ciStarts (pat s : Str) : Bool :=
  (pat.map Char.toLower).isPrefixOf (s.map Char.toLower)

/-- Index of the leftmost (case-sensitive) occurrence of `pat` in `s`. -/
def findSub (pat : Str) : Str → Option Nat
  | [] => if pat.isEmpty then some 0 else none
  | c :: tl =>
    if pat.isPrefixOf (c :: tl) then some 0
    else (findSub pat tl).map (· + 1)

/-! ### JSON values and a model of `json.loads`

A JSON document as produced by Python's `json` module.  Numbers keep their
source lexeme verbatim: no property of this repository inspects a numeric
value, only shapes, strings and lists.  Objects are represented as
key/value lists in insertion order with Python-`dict` duplicate handling
(a repeated key overwrites the value but keeps the first position). -/

inductive J where
  | null
  | bool (b : Bool)
  | num (lexeme : Str)
  | s (v : Str)
  | arr (elems : List J)
  | obj (kvs : List (Str × J))

/-- Keys of an object, in order. -/
def keysOf (kvs : List (Str × J)) : List Str := kvs.map Prod.fst

/-- First-match association lookup (Python `dict` indexing; the parser below
    never produces duplicate keys). -/
def lookupJ : List (Str × J) → Str → Option J
  | [], _ => none
  | (k, v) :: rest, key => if k = key then some v else lookupJ rest key

/-- Python `dict` insertion: a repeated key overwrites in place, a new key
    is appended. -/
def insertKV : List (Str × J) → Str → J → List (Str × J)
  | [], k, v => [(k, v)]
  | (k0, v0) :: rest, k, v =>
    if k0 = k then (k0, v) :: rest else (k0, v0) :: insertKV rest k v

/-- JSON structural whitespace (RFC 8259, as accepted by `json.loads`). -/
def jsWs (c : Char) : Bool :=
  c = ' ' || c = '\t' || c = '\n' || c = '\r'

/-- Skip JSON whitespace. -/
def jskip (s : Str) : Str := s.dropWhile jsWs

/-- Strip a literal keyword (`null`, `true`, `false`) from the front. -/
def stripLit (pat s : Str) : Option Str :=
  if pat.isPrefixOf s then some (s.drop pat.length) else none

/-- Decode one hex digit by character code. -/
def hexDigit (c : Char) : Option Nat :=
  let n := c.toNat
  if 48 ≤ n && n ≤ 57 then some (n - 48)
  else if 97 ≤ n && n ≤ 102 then some (n - 87)
  else if 65 ≤ n && n ≤ 70 then some (n - 55)
  else none

/-- Decode a `\uXXXX` escape. -/
def hexQuad (a b c d : Char) : Option Nat :=
  match hexDigit a, hexDigit b, hexDigit c, hexDigit d with
  | some x, some y, some z, some w => some (4096 * x + 256 * y + 16 * z + w)
  | _, _, _, _ => none

/-- The single-character JSON escapes `json.loads` accepts. -/
def jEscape (c : Char) : Option Char :=
  if c = '"' || c = '\\' || c = '/' then some c
  else if c = 'n' then some '\n'
  else if c = 't' then some '\t'
  else if c = 'r' then some '\r'
  else if c = 'b' then some '\x08'
  else if c = 'f' then some '\x0c'
  else none

/-- Body of a JSON string after the opening quote.  Strict mode: raw control
    characters are rejected, as in `json.loads`.  (Astral `\u` surrogate
    pairs are out of scope; no repository data involves them.) -/
def jstring (acc s : Str) : Option (Str × Str) :=
  match s with
  | [] => none
  | c :: rest =>
    if c = '"' then some (acc.reverse, rest)
    else if c = '\\' then
      match rest with
      | 'u' :: h1 :: h2 :: h3 :: h4 :: tail =>
        match hexQuad h1 h2 h3 h4 with
        | some n => jstring (Char.ofNat n :: acc) tail
        | none => none
      | e :: tail =>
        match jEscape e with
        | some ch => jstring (ch :: acc) tail
        | none => none
      | [] => none
    else if c.toNat < 32 then none
    else jstring (c :: acc) rest

/-- One numeric character usable inside a JSON number lexeme. -/
def jnumChar (c : Char) : Bool :=
  c.isDigit || c = '-' || c = '+' || c = '.' || c = 'e' || c = 'E'

/-- Take a maximal numeric lexeme (shape validation is coarse: every claim
    treats numbers opaquely). -/
def jnumTake (s : Str) : Str × Str :=
  (s.takeWhile jnumChar, s.dropWhile jnumChar)

mutual

/-- Parse one JSON value (fuel-based structural recursion). -/
def jval (fuel : Nat) (cs : Str) : Option (J × Str) :=
  match fuel with
  | 0 => none
  | fuel + 1 =>
    let u := jskip cs
    match stripLit ("null".data) u with
    | some r => some (J.null, r)
    | none =>
    match stripLit ("true".data) u with
    | some r => some (J.bool true, r)
    | none =>
    match stripLit ("false".data) u with
    | some r => some (J.bool false, r)
    | none =>
    match u with
    | '"' :: r => (jstring [] r).map (fun p => (J.s p.1, p.2))
    | '[' :: r =>
      if (jskip r).head? = some ']' then some (J.arr [], (jskip r).tail)
      else (jelems fuel (jskip r)).map (fun p => (J.arr p.1, p.2))
    | '{' :: r =>
      if (jskip r).head? = some '}' then some (J.obj [], (jskip r).tail)
      else (jmembers fuel (jskip r)).map (fun p =>
        (J.obj (p.1.foldl (fun acc kv => insertKV acc kv.1 kv.2) []), p.2))
    | c :: rest =>
      if c = '-' || c.isDigit then
        let t := jnumTake (c :: rest)
        if t.1.isEmpty then none else some (J.num t.1, t.2)
      else none
    | [] => none

/-- Parse one-or-more comma-separated array elements. -/
def jelems (fuel : Nat) (cs : Str) : Option (List J × Str) :=
  match fuel with
  | 0 => none
  | fuel + 1 =>
    match jval fuel cs with
    | none => none
    | some (v, r) =>
      match jskip r with
      | ',' :: r1 => (jelems fuel r1).map (fun p => (v :: p.1, p.2))
      | ']' :: r1 => some ([v], r1)
      | _ => none

/-- Parse one-or-more comma-separated object members (raw pair list; the
    caller applies Python-`dict` duplicate collapsing). -/
def jmembers (fuel : Nat) (cs : Str) : Option (List (Str × J) × Str) :=
  match fuel with
  | 0 => none
  | fuel + 1 =>
    match jskip cs with
    | '"' :: r =>
      match jstring [] r with
      | none => none
      | some (key, r1) =>
        match jskip r1 with
        | ':' :: r2 =>
          match jval fuel r2 with
          | none => none
          | some (v, r3) =>
            match jskip r3 with
            | ',' :: r4 => (jmembers fuel r4).map (fun p => ((key, v) :: p.1, p.2))
            | '}' :: r4 => some ([(key, v)], r4)
            | _ => none
        | _ => none
    | _ => none

end

/-- Model of `json.loads`: parse a complete document, allowing surrounding
    whitespace only.  `none` models a raised `json.JSONDecodeError`. -/
def jparse (s : Str) : Option J :=
  match jval (s.length + 1) s with
  | some (v, rest) => if (jskip rest).isEmpty then some v else none
  | none => none

/-! ### The data model (`method_extractor.py`, `paper_ingestion.py`)

Dataclasses, with fields at their annotated types (see the modelling note
at the top of the file on run-time enforcement). -/

/-- `method_extractor.ComputationalMethod`. -/
structure ComputationalMethod where
  name : Str
  description : Str
  software_tools : List Str
  programming_languages : List Str
  parameters : List (Str × Str)
  category : Str
deriving DecidableEq

/-- `method_extractor.Dataset`; `size` is optional with default `None`. -/
structure Dataset where
  name : Str
  description : Str
  source : Str
  format : Str
  size : Option Str := none
deriving DecidableEq

/-- `method_extractor.Workflow`. -/
structure Workflow where
  name : Str
  steps : List Str
  input_data : List Str
  output_data : List Str
  dependencies : List Str
deriving DecidableEq

/-- `method_extractor.ExtractedMethods` (the spec's ExtractionResult). -/
structure ExtractedMethods where
  computational_methods : List ComputationalMethod
  datasets : List Dataset
  workflows : List Workflow
  key_findings : List Str
  reproducibility_notes : Str
deriving DecidableEq

/-- `paper_ingestion.PaperMetadata` (the spec's PaperRecord). -/
structure PaperMetadata where
  title : Str
  authors : List Str
  abstract : Str
  doi : Str
  pubmed_id : Str
  journal : Str
  year : Str
  full_text : Str
deriving DecidableEq

/-- `qa_interface.QAExchange`. -/
structure QAExchange where
  question : Str
  answer : Str
  timestamp : Str
  context_used : Str
deriving DecidableEq

/-- `code_generator.GeneratedCode` (the spec's GeneratedScript). -/
structure GeneratedCode where
  script_content : Str
  language : Str
  dependencies : List Str
  description : Str
  usage_instructions : Str
deriving DecidableEq

/-! ### Typed readers for JSON values -/

/-- Exception-propagating list traversal: a Python comprehension in which any
    element's construction may raise. -/
def omap (f : α → Option β) : List α → Option (List β)
  | [] => some []
  | x :: xs =>
    match f x with
    | some y => (omap f xs).map (y :: ·)
    | none => none

/-- Read a JSON string. -/
def jStr? : J → Option Str
  | J.s v => some v
  | _ => none

/-- Read a JSON array of strings. -/
def jStrList? : J → Option (List Str)
  | J.arr xs => omap jStr? xs
  | _ => none

/-- Read a JSON object whose values are all strings. -/
def jStrMap? : J → Option (List (Str × Str))
  | J.obj kvs => omap (fun kv => (jStr? kv.2).map (kv.1, ·)) kvs
  | _ => none

/-- Read a JSON string-or-null, for `Dataset.size`. -/
def jOptStr? : J → Option (Option Str)
  | J.null => some none
  | J.s v => some (some v)
  | _ => none

/-! ### Dataclass construction from parsed JSON items

`ComputationalMethod(**method)` and friends: keyword construction fails on
a missing required field or on an unexpected/misnamed field (`TypeError`),
and succeeds with `size = None` when only `Dataset.size` is omitted. -/

/-- Declared fields of `ComputationalMethod` (all required). -/
def cmKeys : List Str :=
  ["name".data, "description".data, "software_tools".data,
   "programming_languages".data, "parameters".data, "category".data]

/-- Declared fields of `Dataset` (`size` optional). -/
def dsKeys : List Str :=
  ["name".data, "description".data, "source".data, "format".data, "size".data]

/-- Required fields of `Dataset`. -/
def dsRequired : List Str :=
  ["name".data, "description".data, "source".data, "format".data]

/-- Declared fields of `Workflow` (all required). -/
def wfKeys : List Str :=
  ["name".data, "steps".data, "input_data".data, "output_data".data,
   "dependencies".data]

/-- Keyword-shape check: every supplied key is declared and every required
    key is supplied. -/
def kwShapeOk (kvs : List (Str × J)) (allowed required : List Str) : Bool :=
  (keysOf kvs).all (fun k => decide (k ∈ allowed)) &&
    required.all (fun k => decide (k ∈ keysOf kvs))

/-- `ComputationalMethod(**method)`. -/
def mkComputationalMethod (v : J) : Option ComputationalMethod :=
  match v with
  | J.obj kvs =>
    if kwShapeOk kvs cmKeys cmKeys then do
      let n ← lookupJ kvs ("name".data) >>= jStr?
      let d ← lookupJ kvs ("description".data) >>= jStr?
      let st ← lookupJ kvs ("software_tools".data) >>= jStrList?
      let pl ← lookupJ kvs ("programming_languages".data) >>= jStrList?
      let ps ← lookupJ kvs ("parameters".data) >>= jStrMap?
      let c ← lookupJ kvs ("category".data) >>= jStr?
      some ⟨n, d, st, pl, ps, c⟩
    else none
  | _ => none

/-- `Dataset(**dataset)`. -/
def mkDataset (v : J) : Option Dataset :=
  match v with
  | J.obj kvs =>
    if kwShapeOk kvs dsKeys dsRequired then do
      let n ← lookupJ kvs ("name".data) >>= jStr?
      let d ← lookupJ kvs ("description".data) >>= jStr?
      let so ← lookupJ kvs ("source".data) >>= jStr?
      let fo ← lookupJ kvs ("format".data) >>= jStr?
      let sz ←
        match lookupJ kvs ("size".data) with
        | none => some none
        | some w => jOptStr? w
      some ⟨n, d, so, fo, sz⟩
    else none
  | _ => none

/-- `Workflow(**workflow)`. -/
def mkWorkflow (v : J) : Option Workflow :=
  match v with
  | J.obj kvs =>
    if kwShapeOk kvs wfKeys wfKeys then do
      let n ← lookupJ kvs ("name".data) >>= jStr?
      let st ← lookupJ kvs ("steps".data) >>= jStrList?
      let ind ← lookupJ kvs ("input_data".data) >>= jStrList?
      let out ← lookupJ kvs ("output_data".data) >>= jStrList?
      let dep ← lookupJ kvs ("dependencies".data) >>= jStrList?
      some ⟨n, st, ind, out, dep⟩
    else none
  | _ => none

/-- Iterate a JSON value as a Python list of items, constructing each. -/
def parseItemList (mk : J → Option α) : J → Option (List α)
  | J.arr xs => omap mk xs
  | _ => none

/-! ### The Extraction Pipeline (`method_extractor.MethodExtractor`) -/

/-- `MethodExtractor._create_extraction_prompt` (f-string transcribed; the
    paper text is truncated to its first 15,000 characters). -/
def extraction_prompt (paper_text paper_title : Str) : Str :=
  "\nAnalyze the following research paper and extract computational methods, datasets, and workflows in a structured JSON format.\n\nPaper Title: ".data
  ++ paper_title
  ++ "\n\nPaper Text:\n".data
  ++ paper_text.take 15000
  ++ "  # Limit text to avoid token limits\n\nPlease extract and structure the following information as a JSON object:\n\n1. **Computational Methods**: Identify all computational approaches, algorithms, statistical methods, and analysis techniques used. For each method include:\n   - name: The name/type of method\n   - description: Brief description of what it does\n   - software_tools: List of software/tools mentioned (e.g., R, Python, MATLAB, specific packages)\n   - programming_languages: Languages used\n   - parameters: Key parameters or settings mentioned\n   - category: Type of analysis (statistical_analysis, machine_learning, bioinformatics, image_analysis, etc.)\n\n2. **Datasets**: Identify all datasets used. For each dataset include:\n   - name: Dataset name or identifier\n   - description: What the dataset contains\n   - source: Where it came from (database, experiment, etc.)\n   - format: File format or data type\n   - size: Size if mentioned\n\n3. **Workflows**: Identify analysis workflows or pipelines. For each workflow include:\n   - name: Workflow name or purpose\n   - steps: Ordered list of analysis steps\n   - input_data: What data goes in\n   - output_data: What results are produced\n   - dependencies: Required software/tools\n\n4. **Key Findings**: List the main computational/methodological findings or results\n\n5. **Reproducibility Notes**: Any notes about code availability, data sharing, or reproducibility\n\nReturn your response as a valid JSON object with the following structure:\n\x7b\n  \"computational_methods\": [\n    \x7b\n      \"name\": \"string\",\n      \"description\": \"string\",\n      \"software_tools\": [\"string\"],\n      \"programming_languages\": [\"string\"],\n      \"parameters\": \x7b\"param\": \"value\"\x7d,\n      \"category\": \"string\"\n    \x7d\n  ],\n  \"datasets\": [\n    \x7b\n      \"name\": \"string\",\n      \"description\": \"string\",\n      \"source\": \"string\",\n      \"format\": \"string\",\n      \"size\": \"string\"\n    \x7d\n  ],\n  \"workflows\": [\n    \x7b\n      \"name\": \"string\",\n      \"steps\": [\"string\"],\n      \"input_data\": [\"string\"],\n      \"output_data\": [\"string\"],\n      \"dependencies\": [\"string\"]\n    \x7d\n  ],\n  \"key_findings\": [\"string\"],\n  \"reproducibility_notes\": \"string\"\n\x7d\n\nFocus on extracting concrete, actionable information that could be used to reproduce the computational aspects of the research.\n".data

/-- The message of the `ValueError` raised when no `{`/`}` pair exists,
    after being caught and re-formatted by the generic handler of
    `_parse_extraction_result`. -/
def msgNoJson : Str :=
  "Failed to parse extraction result: No JSON found in response".data

/-- The `json.JSONDecodeError` handler's message (the interpolated decoder
    detail is elided; no property inspects it). -/
def msgBadJson : Str := "Failed to parse JSON response".data

/-- The generic handler's message for a construction (`TypeError` etc.)
    failure (interpolated exception detail elided). -/
def msgBadShape : Str := "Failed to parse extraction result".data

/-- The wrapper `extract_methods` applies to every exception escaping its
    `try` block, which encloses both the Gateway call and the parsing. -/
def wrapMsg : Str := "Failed to extract methods using Claude: ".data

/-- `result_text.find('{')` / `result_text.rfind('}') + 1` and the slice
    between them; `none` models the sentinel check `json_start == -1 or
    json_end == 0`. -/
def jsonSub (s : Str) : Option Str :=
  match s.findIdx? (· = '\x7b') with
  | none => none
  | some i =>
    match (s.reverse.findIdx? (· = '\x7d')).map (fun j => s.length - 1 - j) with
    | none => none
    | some j => some ((s.drop i).take (j + 1 - i))

/-- `data.get(key, default)`. -/
def lookupD (kvs : List (Str × J)) (k : Str) (d : J) : J :=
  (lookupJ kvs k).getD d

/-- The field extraction of `_parse_extraction_result` on a successfully
    decoded JSON object: missing keys default to `[]` / `''`, and each item
    of the three record lists is constructed strictly. -/
def parse_fields (kvs : List (Str × J)) : Option ExtractedMethods := do
  let cm ← parseItemList mkComputationalMethod
    (lookupD kvs ("computational_methods".data) (J.arr []))
  let ds ← parseItemList mkDataset (lookupD kvs ("datasets".data) (J.arr []))
  let wf ← parseItemList mkWorkflow (lookupD kvs ("workflows".data) (J.arr []))
  let kf ← jStrList? (lookupD kvs ("key_findings".data) (J.arr []))
  let rn ← jStr? (lookupD kvs ("reproducibility_notes".data) (J.s []))
  some ⟨cm, ds, wf, kf, rn⟩

/-- `MethodExtractor._parse_extraction_result`. -/
def parse_extraction_result (result_text : Str) : Except Str ExtractedMethods :=
  match jsonSub result_text with
  | none => .error msgNoJson
  | some sub =>
    match jparse sub with
    | none => .error msgBadJson
    | some (J.obj kvs) =>
      match parse_fields kvs with
      | some r => .ok r
      | none => .error msgBadShape
    | some _ => .error msgBadShape

/-- `MethodExtractor.extract_methods`: one Gateway call, then parsing, with
    every escaping exception re-raised under `wrapMsg`. -/
def extract_methods (gw : Str → Except Str Str) (paper_text paper_title : Str) :
    Except Str ExtractedMethods :=
  match gw (extraction_prompt paper_text paper_title) with
  | .ok reply =>
    match parse_extraction_result reply with
    | .ok r => .ok r
    | .error e => .error (wrapMsg ++ e)
  | .error e => .error (wrapMsg ++ e)

/-! ### Persistence (`save_extracted_methods` / `load_extracted_methods`)

`dataclasses.asdict` composed with `json.dump` produces a JSON document;
the document (not its file encoding, which is the standard library's
concern) is the model boundary. -/

/-- `asdict` on a `ComputationalMethod`. -/
def methodToJ (m : ComputationalMethod) : J :=
  J.obj [("name".data, J.s m.name),
         ("description".data, J.s m.description),
         ("software_tools".data, J.arr (m.software_tools.map J.s)),
         ("programming_languages".data, J.arr (m.programming_languages.map J.s)),
         ("parameters".data, J.obj (m.parameters.map (fun p => (p.1, J.s p.2)))),
         ("category".data, J.s m.category)]

/-- `asdict` on a `Dataset` (`None` serializes as JSON `null`). -/
def datasetToJ (d : Dataset) : J :=
  J.obj [("name".data, J.s d.name),
         ("description".data, J.s d.description),
         ("source".data, J.s d.source),
         ("format".data, J.s d.format),
         ("size".data, match d.size with | some v => J.s v | none => J.null)]

/-- `asdict` on a `Workflow`. -/
def workflowToJ (w : Workflow) : J :=
  J.obj [("name".data, J.s w.name),
         ("steps".data, J.arr (w.steps.map J.s)),
         ("input_data".data, J.arr (w.input_data.map J.s)),
         ("output_data".data, J.arr (w.output_data.map J.s)),
         ("dependencies".data, J.arr (w.dependencies.map J.s))]

/-- `MethodExtractor.save_extracted_methods`: the persisted JSON document. -/
def save_extracted_methods (m : ExtractedMethods) : J :=
  J.obj [("computational_methods".data, J.arr (m.computational_methods.map methodToJ)),
         ("datasets".data, J.arr (m.datasets.map datasetToJ)),
         ("workflows".data, J.arr (m.workflows.map workflowToJ)),
         ("key_findings".data, J.arr (m.key_findings.map J.s)),
         ("reproducibility_notes".data, J.s m.reproducibility_notes)]

/-- `MethodExtractor.load_extracted_methods`: strict reconstruction — every
    one of the five keys is indexed directly (`KeyError` on absence), and
    items go through the same keyword constructors. -/
def load_extracted_methods (doc : J) : Option ExtractedMethods :=
  match doc with
  | J.obj kvs => do
    let cmv ← lookupJ kvs ("computational_methods".data)
    let cm ← parseItemList mkComputationalMethod cmv
    let dsv ← lookupJ kvs ("datasets".data)
    let ds ← parseItemList mkDataset dsv
    let wfv ← lookupJ kvs ("workflows".data)
    let wf ← parseItemList mkWorkflow wfv
    let kfv ← lookupJ kvs ("key_findings".data)
    let kf ← jStrList? kfv
    let rnv ← lookupJ kvs ("reproducibility_notes".data)
    let rn ← jStr? rnv
    some ⟨cm, ds, wf, kf, rn⟩
  | _ => none

/-! ### The Code-Generation Pipeline (`code_generator.CodeGenerator`)

The generator's `self.templates` dict (loaded from the `templates/`
directory through the filesystem) is a constructor-supplied association
list parameter. -/

/-- First-match lookup in a string-to-string association list
    (Python `dict.get`). -/
def lookupS : List (Str × Str) → Str → Option Str
  | [], _ => none
  | (k, v) :: rest, key => if k = key then some v else lookupS rest key

/-- The literal `category_mapping` dict of `_get_template_for_category`. -/
def category_mapping : List (Str × Str) :=
  [("statistical_analysis".data, "statistical_analysis".data),
   ("machine_learning".data, "machine_learning".data),
   ("bioinformatics".data, "bioinformatics".data),
   ("data_analysis".data, "statistical_analysis".data),
   ("image_analysis".data, "statistical_analysis".data)]

/-- `CodeGenerator._get_template_for_category`. -/
def get_template_for_category (templates : List (Str × Str)) (category : Str) : Str :=
  (lookupS templates
    ((lookupS category_mapping category).getD ("statistical_analysis".data))).getD []

/-- Python `repr` of a string-to-string dict, as an f-string renders
    `{method.parameters}` (single-quoted keys and values; exotic quoting
    cases do not arise in any property). -/
def pyDictRepr (ps : List (Str × Str)) : Str :=
  "\x7b".data
  ++ joinSep (", ".data)
      (ps.map (fun p => "\x27".data ++ p.1 ++ "\x27: \x27".data ++ p.2 ++ "\x27".data))
  ++ "\x7d".data

/-- The `methods_text` block of `_create_code_generation_prompt`. -/
def methodsText (methods : List ComputationalMethod) : Str :=
  joinSep ("\n".data)
    (methods.map (fun m =>
      "- ".data ++ m.name ++ ": ".data ++ m.description
      ++ "\n  Tools: ".data ++ joinSep (", ".data) m.software_tools
      ++ "\n  Parameters: ".data ++ pyDictRepr m.parameters ++ "\n".data))

/-- The `datasets_text` block of `_create_code_generation_prompt`. -/
def datasetsText (datasets : List Dataset) : Str :=
  joinSep ("\n".data)
    (datasets.map (fun d =>
      "- ".data ++ d.name ++ ": ".data ++ d.description
      ++ " (Format: ".data ++ d.format ++ ")".data))

/-- The `workflows_text` block of `_create_code_generation_prompt`. -/
def workflowsText (workflows : List Workflow) : Str :=
  joinSep ("\n".data)
    (workflows.map (fun w =>
      "- ".data ++ w.name ++ ":\n".data
      ++ joinSep ("\n".data)
          (w.steps.enum.map (fun p =>
            "  ".data ++ natStr (p.1 + 1) ++ ". ".data ++ p.2))))

/-- `CodeGenerator._create_code_generation_prompt` (f-string transcribed). -/
def create_code_generation_prompt (category : Str)
    (methods : List ComputationalMethod) (extracted : ExtractedMethods)
    (paper_title language template : Str) : Str :=
  "\nGenerate a complete ".data ++ language
  ++ " script that reproduces the computational analysis from this research paper.\n\nPaper Title: ".data
  ++ paper_title
  ++ "\n\nCategory: ".data ++ category
  ++ "\n\nMethods to implement:\n".data ++ methodsText methods
  ++ "\n\nAvailable Datasets:\n".data ++ datasetsText extracted.datasets
  ++ "\n\nAnalysis Workflows:\n".data ++ workflowsText extracted.workflows
  ++ "\n\nTemplate (modify and extend as needed):\n".data ++ template
  ++ "\n\nRequirements:\n1. Create a complete, runnable script in ".data ++ language
  ++ "\n2. Include all necessary imports and dependencies\n3. Implement the specific methods mentioned above\n4. Add data loading functions that work with the specified dataset formats\n5. Include proper error handling and logging\n6. Add visualization functions where appropriate\n7. Include parameter settings that match those described in the paper\n8. Add comprehensive comments explaining each step\n9. Make the code modular and reusable\n10. Include example usage at the bottom\n\nReturn your response in this format:\n\n```".data
  ++ language
  ++ "\n[COMPLETE SCRIPT CODE HERE]\n```\n\nDEPENDENCIES:\n[LIST ALL REQUIRED PACKAGES/LIBRARIES]\n\nDESCRIPTION:\n[BRIEF DESCRIPTION OF WHAT THE SCRIPT DOES]\n\nUSAGE:\n[INSTRUCTIONS ON HOW TO RUN THE SCRIPT]\n\nFocus on creating production-ready code that closely follows the methodology described in the paper.\n".data

/-! #### The regex models for `_parse_code_generation_result`

`re.search(p, s, re.DOTALL | re.IGNORECASE)` for the patterns used there:
leftmost match, lazy capture, `$` matching at end of text or just before a
final newline. -/

/-- Leftmost ```-fenced block: at each position, if the (case-insensitive)
    opening fence matches, capture lazily up to the nearest closing fence;
    with no closing fence the engine moves on, exactly as `re.search` does. -/
def scanFenced (opn : Str) : Str → Option Str
  | [] => none
  | c :: tl =>
    if ciStarts opn (c :: tl) then
      match findSub ("```".data) ((c :: tl).drop opn.length) with
      | some j => some (((c :: tl).drop opn.length).take j)
      | none => scanFenced opn tl
    else scanFenced opn tl

/-- Lazy capture `(.*?)` bounded by a lookahead `(?=NEXT|$)`: stop at the
    first position where the next label (case-insensitively) starts, or at
    `$` (end of text, or just before a final newline). -/
def secTake (nextLab : Option Str) : Str → Str
  | [] => []
  | c :: tl =>
    if (match nextLab with | some p => ciStarts p (c :: tl) | none => false) then []
    else if c = '\n' && tl.isEmpty then []
    else c :: secTake nextLab tl

/-- Remainder of the text after the leftmost case-insensitive occurrence of
    a section label; `none` when the label never occurs. -/
def findLabelCI (lab : Str) : Str → Option Str
  | [] => none
  | c :: tl =>
    if ciStarts lab (c :: tl) then some ((c :: tl).drop lab.length)
    else findLabelCI lab tl

/-- `re.search("LABEL:\s*(.*?)(?=NEXT|$)", s, DOTALL | IGNORECASE)`, giving
    the raw `group(1)` text: the greedy `\s*` skip, then the lazy bounded
    capture. -/
def sectionText (lab : Str) (nextLab : Option Str) (s : Str) : Option Str :=
  (findLabelCI lab s).map (fun rest => secTake nextLab (rest.dropWhile pySpace))

/-- `CodeGenerator._parse_code_generation_result`: never fails — the script
    body degrades from a language-tagged fence to any fence to the whole
    reply, and each labeled section has a default. -/
def parse_code_generation_result (result_text category language : Str) :
    GeneratedCode :=
  let tagged := scanFenced ("```".data ++ language) result_text
  let fenced :=
    match tagged with
    | some c => some c
    | none => scanFenced ("```".data) result_text
  let script :=
    match fenced with
    | some c => pyStrip c
    | none => result_text
  let deps :=
    match sectionText ("DEPENDENCIES:".data) (some ("DESCRIPTION:".data)) result_text with
    | some t => (((pyStrip t).splitOn '\n').map pyStrip).filter (fun d => !d.isEmpty)
    | none => []
  let desc :=
    match sectionText ("DESCRIPTION:".data) (some ("USAGE:".data)) result_text with
    | some t => pyStrip t
    | none => "Generated ".data ++ category ++ " analysis script".data
  let usage :=
    match sectionText ("USAGE:".data) none result_text with
    | some t => pyStrip t
    | none => "Run the script with your data files".data
  ⟨script, language, deps, desc, usage⟩

/-- One step of the grouping loop of `generate_code_from_methods`: append
    the method to its category's group, or open a new group at the end. -/
def addToGroup : List (Str × List ComputationalMethod) → ComputationalMethod →
    List (Str × List ComputationalMethod)
  | [], m => [(m.category, [m])]
  | (c, g) :: rest, m =>
    if c = m.category then (c, g ++ [m]) :: rest
    else (c, g) :: addToGroup rest m

/-- The `methods_by_category` dict, in insertion order. -/
def groupByCategory (ms : List ComputationalMethod) :
    List (Str × List ComputationalMethod) :=
  ms.foldl addToGroup []

/-- `CodeGenerator._generate_category_script`: `None` (a logged, recorded
    omission) when the Gateway call for this category fails. -/
def generate_category_script (gw : Str → Except Str Str)
    (templates : List (Str × Str)) (category : Str)
    (methods : List ComputationalMethod) (extracted : ExtractedMethods)
    (paper_title language : Str) : Option GeneratedCode :=
  match gw (create_code_generation_prompt category methods extracted paper_title
      language (get_template_for_category templates category)) with
  | .ok t => some (parse_code_generation_result t category language)
  | .error _ => none

/-- The `if script: generated_scripts.append(script)` step of the
    generation loop (a dataclass instance is always truthy, so the test is
    a `None` check). -/
def collectScript (acc : List GeneratedCode) :
    Option GeneratedCode → List GeneratedCode
  | some script => acc ++ [script]
  | none => acc

/-- `CodeGenerator.generate_code_from_methods`: group, then one generation
    attempt per category, keeping only the successes. -/
def generate_code_from_methods (gw : Str → Except Str Str)
    (templates : List (Str × Str)) (extracted : ExtractedMethods)
    (paper_title language : Str) : List GeneratedCode :=
  (groupByCategory extracted.computational_methods).foldl
    (fun acc g =>
      collectScript acc (generate_category_script gw templates g.1 g.2 extracted
        paper_title language)) []

/-! ### The Q&A Engine (`qa_interface.InteractiveQA`) -/

/-- The mutable state of an `InteractiveQA` instance. -/
structure QAState where
  paper_metadata : Option PaperMetadata
  extracted_methods : Option ExtractedMethods
  conversation_history : List QAExchange
deriving DecidableEq

/-- The constant `context_used` marker. -/
def contextTag : Str := "paper_content_and_methods".data

/-- Python `lst[-n:]`. -/
def lastN (n : Nat) (l : List α) : List α := l.drop (l.length - n)

/-- `InteractiveQA._create_qa_prompt` (f-string transcribed; full text
    truncated to 8,000 characters, last 3 exchanges included). -/
def create_qa_prompt (md : PaperMetadata) (er : ExtractedMethods)
    (history : List QAExchange) (question : Str) : Str :=
  "\nYou are an expert research assistant helping to answer questions about a scientific paper\x27s methodology and computational approaches.\n\n".data
  ++ ("\nPaper Title: ".data ++ md.title
      ++ "\nAuthors: ".data ++ joinSep (", ".data) md.authors
      ++ "\nJournal: ".data ++ md.journal ++ " (".data ++ md.year ++ ")".data
      ++ "\nDOI: ".data ++ md.doi
      ++ "\n\nAbstract:\n".data ++ md.abstract
      ++ "\n\nFull Text (excerpt):\n".data ++ md.full_text.take 8000
      ++ "  # Limit to avoid token limits\n".data)
  ++ "\n\n".data
  ++ ("Extracted Computational Methods:\n".data
      ++ (er.computational_methods.map (fun m =>
            "\n- ".data ++ m.name
            ++ ":\n  Description: ".data ++ m.description
            ++ "\n  Software Tools: ".data ++ joinSep (", ".data) m.software_tools
            ++ "\n  Programming Languages: ".data
            ++ joinSep (", ".data) m.programming_languages
            ++ "\n  Parameters: ".data ++ pyDictRepr m.parameters
            ++ "\n  Category: ".data ++ m.category ++ "\n".data)).flatten)
  ++ "\n\n".data
  ++ ("Datasets Used:\n".data
      ++ (er.datasets.map (fun d =>
            "\n- ".data ++ d.name
            ++ ":\n  Description: ".data ++ d.description
            ++ "\n  Source: ".data ++ d.source
            ++ "\n  Format: ".data ++ d.format ++ "\n".data)).flatten)
  ++ "\n\n".data
  ++ ("Analysis Workflows:\n".data
      ++ (er.workflows.map (fun w =>
            "\n- ".data ++ w.name
            ++ ":\n  Steps: ".data ++ joinSep (" → ".data) w.steps
            ++ "\n  Input Data: ".data ++ joinSep (", ".data) w.input_data
            ++ "\n  Output Data: ".data ++ joinSep (", ".data) w.output_data
            ++ "\n  Dependencies: ".data ++ joinSep (", ".data) w.dependencies
            ++ "\n".data)).flatten)
  ++ "\n\n".data
  ++ (if history.isEmpty then []
      else "Recent Conversation:\n".data
        ++ ((lastN 3 history).map (fun e =>
              "Q: ".data ++ e.question ++ "\nA: ".data ++ e.answer
              ++ "\n\n".data)).flatten)
  ++ "\n\nKey Findings from the Paper:\n".data
  ++ joinSep ("\n".data) er.key_findings
  ++ "\n\nReproducibility Notes:\n".data ++ er.reproducibility_notes
  ++ "\n\nUser Question: ".data ++ question
  ++ "\n\nPlease provide a detailed, accurate answer based on the paper\x27s content and methodology. Focus on:\n1. Specific methodological details\n2. Computational approaches and parameters\n3. Data processing steps\n4. Software tools and implementations\n5. Reproducibility considerations\n\nIf the question cannot be answered from the provided paper content, clearly state that and suggest what additional information might be needed.\n".data

/-- The fixed guidance reply of `ask_question` when no context is loaded. -/
def qaGuidance : Str := "Please load a paper first before asking questions.".data

/-- The in-band error reply marker of `ask_question`. -/
def qaErrorMark : Str := "Error processing question: ".data

/-- `InteractiveQA._add_to_history`: append, then keep only the last 10
    entries.  `now` stands for `datetime.now().isoformat()`. -/
def add_to_history (history : List QAExchange) (question answer now : Str) :
    List QAExchange :=
  let h := history ++ [⟨question, answer, now, contextTag⟩]
  if h.length > 10 then h.drop (h.length - 10) else h

/-- `InteractiveQA.ask_question`: guidance without context, soft-fail error
    string on a Gateway error, append-and-cap on success. -/
def ask_question (gw : Str → Except Str Str) (now : Str) (s : QAState)
    (question : Str) : QAState × Str :=
  match s.paper_metadata, s.extracted_methods with
  | some md, some er =>
    match gw (create_qa_prompt md er s.conversation_history question) with
    | .ok answer =>
      ({ s with conversation_history :=
          add_to_history s.conversation_history question answer now }, answer)
    | .error e => (s, qaErrorMark ++ e)
  | _, _ => (s, qaGuidance)

/-- A run of sequential `ask_question` calls; each pair supplies the
    question and that call's clock reading. -/
def askMany (gw : Str → Except Str Str) (calls : List (Str × Str))
    (s : QAState) : QAState :=
  calls.foldl (fun st c => (ask_question gw c.2 st c.1).1) s

/-- `InteractiveQA.get_conversation_history` returns `.copy()` of the
    history: as a value, the history itself; the aliasing consequence of the
    copy is modelled by the heap functions below. -/
def get_conversation_history (s : QAState) : List QAExchange :=
  s.conversation_history

/-- One exchange of `load_conversation`: the three keys are indexed
    directly (`KeyError` on absence; extra keys are ignored), and the
    context tag is re-stamped. -/
def loadExchange (item : J) : Option QAExchange :=
  match item with
  | J.obj kvs => do
    let q ← lookupJ kvs ("question".data) >>= jStr?
    let a ← lookupJ kvs ("answer".data) >>= jStr?
    let t ← lookupJ kvs ("timestamp".data) >>= jStr?
    some ⟨q, a, t, contextTag⟩
  | _ => none

/-- `InteractiveQA.load_conversation`: replace the engine's history with the
    document's `conversation_history` list, verbatim and uncapped. -/
def load_conversation (s : QAState) (doc : J) : Option QAState :=
  match doc with
  | J.obj kvs => do
    let hv ← lookupJ kvs ("conversation_history".data)
    let items ← (match hv with | J.arr xs => some xs | _ => none)
    let hist ← omap loadExchange items
    some { s with conversation_history := hist }
  | _ => none

/-! ### A reference heap for the list-aliasing behavior of
`get_conversation_history`

Python lists are references into a heap; `self.conversation_history.copy()`
allocates a fresh cell holding the same contents.  The heap is a store of
history lists indexed by naturals, with `next` the next fresh address. -/

/-- A heap of conversation-history lists. -/
structure HistHeap where
  store : Nat → List QAExchange
  next : Nat

/-- In-place mutation of the list behind reference `r`. -/
def heapWrite (h : HistHeap) (r : Nat) (v : List QAExchange) : HistHeap :=
  { h with store := fun i => if i = r then v else h.store i }

/-- `get_conversation_history` under the heap model: allocate a fresh cell
    holding a copy of the engine's history and hand back its address. -/
def heapCopyHistory (h : HistHeap) (engineRef : Nat) : HistHeap × Nat :=
  ({ store := fun i => if i = h.next then h.store engineRef else h.store i,
     next := h.next + 1 }, h.next)

/-! ### Specification-side characterizations -/

/-- The distinct elements of a list in order of first occurrence (the
    spec's wording for the category order of the grouping). -/
def firstOccurrences (cs : List Str) : List Str :=
  cs.foldl (fun ks c => if c ∈ ks then ks else ks ++ [c]) []

/-- First-match lookup in the category-grouping association list. -/
def lookupGroup : List (Str × List ComputationalMethod) → Str →
    Option (List ComputationalMethod)
  | [], _ => none
  | (k, v) :: rest, key => if k = key then some v else lookupGroup rest key

/-! ### Concrete fixtures for witnesses and counterexamples -/

/-- A method with only a name and a category, for concrete instances. -/
def exMethod (n c : Str) : ComputationalMethod := ⟨n, [], [], [], [], c⟩

/-- An extraction result carrying only methods, for concrete instances. -/
def exExtracted (ms : List ComputationalMethod) : ExtractedMethods :=
  ⟨ms, [], [], [], []⟩

/-- A minimal paper record, for concrete instances. -/
def exPaper : PaperMetadata :=
  ⟨"t".data, [], "ab".data, "d".data, "p".data, "j".data, "y".data, "ft".data⟩

/-- A persisted-conversation document with `n` identical exchanges. -/
def qaDoc (n : Nat) : J :=
  J.obj [("conversation_history".data,
    J.arr ((List.range n).map (fun _ => J.obj
      [("question".data, J.s ("q".data)),
       ("answer".data, J.s ("a".data)),
       ("timestamp".data, J.s ("t".data))])))]

/-- A fresh Q&A engine state with no context loaded. -/
def emptyQAState : QAState := ⟨none, none, []⟩

/-! ## Lemmas -/

theorem omap_map_eq_some (f : β → Option α) (g : α → β) (l : List α)
    (h : ∀ x, f (g x) = some x) : omap f (l.map g) = some l := by
  induction l with
  | nil => rfl
  | cons x xs ih => simp [omap, h x, ih]

theorem omap_jStr_map (l : List Str) : omap jStr? (l.map J.s) = some l :=
  omap_map_eq_some _ _ _ (fun _ => rfl)

theorem omap_pairs (ps : List (Str × Str)) :
    omap (fun kv => (jStr? kv.2).map (kv.1, ·))
      (ps.map (fun p => (p.1, J.s p.2))) = some ps :=
  omap_map_eq_some _ _ _ (fun _ => rfl)

theorem collectScript_none (acc : List GeneratedCode) :
    collectScript acc none = acc := rfl

theorem collectScript_some (acc : List GeneratedCode) (sc : GeneratedCode) :
    collectScript acc (some sc) = acc ++ [sc] := rfl

/-- Generic shape of the accumulate-successes loop: it builds the
    `filterMap` of the per-element attempt. -/
theorem foldl_collect_eq_filterMap (f : α → Option GeneratedCode) (l : List α) :
    ∀ acc : List GeneratedCode,
      l.foldl (fun acc g => collectScript acc (f g)) acc =
        acc ++ l.filterMap f := by
  induction l with
  | nil => intro acc; simp
  | cons x xs ih =>
    intro acc
    cases hx : f x with
    | none =>
      simp only [List.foldl_cons]
      rw [hx, collectScript_none, ih]
      simp [List.filterMap_cons, hx]
    | some sc =>
      simp only [List.foldl_cons]
      rw [hx, collectScript_some, ih]
      simp [List.filterMap_cons, hx]

theorem map_fst_addToGroup (acc : List (Str × List ComputationalMethod))
    (m : ComputationalMethod) :
    (addToGroup acc m).map Prod.fst =
      if m.category ∈ acc.map Prod.fst then acc.map Prod.fst
      else acc.map Prod.fst ++ [m.category] := by
  induction acc with
  | nil => simp [addToGroup]
  | cons p rest ih =>
    obtain ⟨c, g⟩ := p
    by_cases hc : c = m.category
    · subst hc; simp [addToGroup]
    · have hcc : ¬ m.category = c := fun h => hc h.symm
      simp only [addToGroup, if_neg hc, List.map_cons, ih, List.mem_cons]
      by_cases hm : m.category ∈ List.map Prod.fst rest <;> simp [hm, hcc]

theorem lookupGroup_addToGroup (acc : List (Str × List ComputationalMethod))
    (m : ComputationalMethod) (c : Str) :
    (lookupGroup (addToGroup acc m) c).getD [] =
      if c = m.category then (lookupGroup acc c).getD [] ++ [m]
      else (lookupGroup acc c).getD [] := by
  induction acc with
  | nil =>
    by_cases hc : c = m.category
    · subst hc; simp [addToGroup, lookupGroup]
    · have hc' : ¬ m.category = c := fun h => hc h.symm
      simp [addToGroup, lookupGroup, hc, hc']
  | cons p rest ih =>
    obtain ⟨k, g⟩ := p
    by_cases hk : k = m.category
    · subst hk
      by_cases hc : c = m.category
      · subst hc; simp [addToGroup, lookupGroup]
      · have hc' : ¬ m.category = c := fun h => hc h.symm
        simp [addToGroup, lookupGroup, hc, hc']
    · by_cases hkc : k = c
      · subst hkc
        simp [addToGroup, hk, lookupGroup]
      · simp [addToGroup, hk, lookupGroup, hkc, ih]

theorem foldl_addToGroup_map_fst (ms : List ComputationalMethod) :
    ∀ acc : List (Str × List ComputationalMethod),
      (ms.foldl addToGroup acc).map Prod.fst =
        (ms.map (fun m => m.category)).foldl
          (fun ks c => if c ∈ ks then ks else ks ++ [c]) (acc.map Prod.fst) := by
  induction ms with
  | nil => intro acc; rfl
  | cons m rest ih =>
    intro acc
    simp only [List.foldl_cons, List.map_cons, ih, map_fst_addToGroup]

theorem foldl_addToGroup_lookup (ms : List ComputationalMethod) :
    ∀ (acc : List (Str × List ComputationalMethod)) (c : Str),
      (lookupGroup (ms.foldl addToGroup acc) c).getD [] =
        (lookupGroup acc c).getD [] ++ ms.filter (fun m => m.category = c) := by
  induction ms with
  | nil => intro acc c; simp
  | cons m rest ih =>
    intro acc c
    by_cases hc : m.category = c
    · simp [List.foldl_cons, ih, lookupGroup_addToGroup, hc, List.filter_cons]
    · have hc' : ¬ c = m.category := fun h => hc h.symm
      simp [List.foldl_cons, ih, lookupGroup_addToGroup, hc, hc', List.filter_cons]

/-- The grouping's category keys are the distinct categories in order of
    first occurrence. -/
theorem groupByCategory_map_fst (ms : List ComputationalMethod) :
    (groupByCategory ms).map Prod.fst =
      firstOccurrences (ms.map (fun m => m.category)) := by
  simpa [groupByCategory, firstOccurrences] using foldl_addToGroup_map_fst ms []

/-- Each category's group is the subsequence of methods of that category,
    in their original relative order. -/
theorem groupByCategory_lookup (ms : List ComputationalMethod) (c : Str) :
    (lookupGroup (groupByCategory ms) c).getD [] =
      ms.filter (fun m => m.category = c) := by
  simpa [groupByCategory, lookupGroup] using foldl_addToGroup_lookup ms [] c

/-- `generate_code_from_methods` in closed form: the per-category results,
    successes kept, failures omitted, order preserved. -/
theorem generate_eq_filterMap (gw : Str → Except Str Str)
    (templates : List (Str × Str)) (extracted : ExtractedMethods)
    (paper_title language : Str) :
    generate_code_from_methods gw templates extracted paper_title language =
      (groupByCategory extracted.computational_methods).filterMap
        (fun g => generate_category_script gw templates g.1 g.2 extracted
          paper_title language) := by
  have h := foldl_collect_eq_filterMap
    (fun g => generate_category_script gw templates g.1 g.2 extracted
      paper_title language)
    (groupByCategory extracted.computational_methods) []
  rw [List.nil_append] at h
  exact h

theorem filterMap_some_fn (h : α → β) (l : List α) :
    (l.filterMap fun x => some (h x)) = l.map h := by
  induction l with
  | nil => rfl
  | cons a as ih => simp [List.filterMap_cons, ih]

theorem jStr_s (v : Str) : jStr? (J.s v) = some v := rfl

theorem isPrefix_append_of (l t : Str) : l <+: l ++ t := ⟨t, rfl⟩

theorem isPrefix_append_left (l : Str) {a b : Str} (h : a <+: b) :
    l ++ a <+: l ++ b := by
  obtain ⟨t, rfl⟩ := h
  exact ⟨t, List.append_assoc l a t⟩

/-- Resolve one of the five `data.get(key, default)` fields: whatever the
    key's presence, the field parses, the default is taken exactly when the
    key is missing, and a present key contributes its own parsed value. -/
theorem field_resolve {β : Type} (parse : J → Option β) (dflt : β) (d : J)
    (kvs : List (Str × J)) (key : Str) (hd : parse d = some dflt)
    (hp : ∀ v, lookupJ kvs key = some v → (parse v).isSome) :
    ∃ x, parse (lookupD kvs key d) = some x ∧
      (lookupJ kvs key = none → x = dflt) ∧
      (∀ v l, lookupJ kvs key = some v → parse v = some l → x = l) := by
  cases hk : lookupJ kvs key with
  | none =>
    refine ⟨dflt, ?_, fun _ => rfl, ?_⟩
    · simp [lookupD, hk, hd]
    · intro v l hv hl
      cases hv
  | some v =>
    obtain ⟨l, hl⟩ := Option.isSome_iff_exists.mp (hp v hk)
    refine ⟨l, ?_, ?_, ?_⟩
    · simp [lookupD, hk, hl]
    · intro hnone
      cases hnone
    · intro v' l' hv' hl'
      injection hv' with hv''
      subst hv''
      rw [hl] at hl'
      exact Option.some.inj hl'

theorem kwShapeOk_false_of_missing (kvs : List (Str × J))
    (allowed required : List Str) (k : Str) (hk : k ∈ required)
    (hnk : ¬ k ∈ keysOf kvs) : kwShapeOk kvs allowed required = false := by
  cases hsh : kwShapeOk kvs allowed required with
  | false => rfl
  | true =>
    exfalso
    have h : ((keysOf kvs).all fun k => decide (k ∈ allowed)) = true ∧
        (required.all fun k => decide (k ∈ keysOf kvs)) = true := by
      simpa [kwShapeOk] using hsh
    exact hnk (of_decide_eq_true (List.all_eq_true.mp h.2 k hk))

theorem kwShapeOk_false_of_extra (kvs : List (Str × J))
    (allowed required : List Str) (k : Str) (hk : k ∈ keysOf kvs)
    (hna : ¬ k ∈ allowed) : kwShapeOk kvs allowed required = false := by
  cases hsh : kwShapeOk kvs allowed required with
  | false => rfl
  | true =>
    exfalso
    have h : ((keysOf kvs).all fun k => decide (k ∈ allowed)) = true ∧
        (required.all fun k => decide (k ∈ keysOf kvs)) = true := by
      simpa [kwShapeOk] using hsh
    exact hna (of_decide_eq_true (List.all_eq_true.mp h.1 k hk))

theorem mk_method_toJ (m : ComputationalMethod) :
    mkComputationalMethod (methodToJ m) = some m := by
  simp [mkComputationalMethod, methodToJ, kwShapeOk, keysOf, cmKeys, lookupJ,
    jStr_s, jStrList?, jStrMap?, omap_jStr_map, omap_pairs]

theorem mk_dataset_toJ (d : Dataset) :
    mkDataset (datasetToJ d) = some d := by
  cases hs : d.size with
  | none =>
    simp [mkDataset, datasetToJ, kwShapeOk, keysOf, dsKeys, dsRequired,
      lookupJ, jStr_s, jOptStr?, hs]
    rw [← hs]
  | some v =>
    simp [mkDataset, datasetToJ, kwShapeOk, keysOf, dsKeys, dsRequired,
      lookupJ, jStr_s, jOptStr?, hs]
    rw [← hs]

theorem mk_workflow_toJ (w : Workflow) :
    mkWorkflow (workflowToJ w) = some w := by
  simp [mkWorkflow, workflowToJ, kwShapeOk, keysOf, wfKeys, lookupJ,
    jStr_s, jStrList?, omap_jStr_map]

/-! ## Claims -/

/-- C7: save-then-load is the identity on every ExtractionResult — every
    field survives the round trip through the persisted JSON document,
    including the all-empty result. -/
theorem claim7_persistence_roundtrip :
    (∀ r : ExtractedMethods,
      load_extracted_methods (save_extracted_methods r) = some r) ∧
    load_extracted_methods (save_extracted_methods ⟨[], [], [], [], []⟩) =
      some ⟨[], [], [], [], []⟩ := by
  constructor
  · intro r
    simp [load_extracted_methods, save_extracted_methods, lookupJ,
      parseItemList, jStrList?, jStr?, omap_jStr_map,
      omap_map_eq_some mkComputationalMethod methodToJ _ mk_method_toJ,
      omap_map_eq_some mkDataset datasetToJ _ mk_dataset_toJ,
      omap_map_eq_some mkWorkflow workflowToJ _ mk_workflow_toJ]
  · rfl

/-- C5: code generation groups the methods by category — one script per
    distinct category, categories in order of first occurrence, each group
    keeping the methods' original relative order — and, with every
    per-category call succeeding, emits exactly one script per group in
    that order; on the example `[A at X, B at Y, C at X]` the category
    order is `[X, Y]` and the group of `X` is `[A, C]`. -/
theorem claim5_grouping :
    (∀ (f : Str → Str) (templates : List (Str × Str))
        (extracted : ExtractedMethods) (paper_title language : Str),
      generate_code_from_methods (fun p => Except.ok (f p)) templates extracted
          paper_title language =
        (groupByCategory extracted.computational_methods).map
          (fun g => parse_code_generation_result
            (f (create_code_generation_prompt g.1 g.2 extracted paper_title
              language (get_template_for_category templates g.1)))
            g.1 language)) ∧
    (∀ ms : List ComputationalMethod,
      (groupByCategory ms).map Prod.fst =
        firstOccurrences (ms.map (fun m => m.category)) ∧
      ∀ c : Str, (lookupGroup (groupByCategory ms) c).getD [] =
        ms.filter (fun m => m.category = c)) ∧
    groupByCategory
        [exMethod ("A".data) ("X".data), exMethod ("B".data) ("Y".data),
         exMethod ("C".data) ("X".data)] =
      [(("X".data), [exMethod ("A".data) ("X".data),
                     exMethod ("C".data) ("X".data)]),
       (("Y".data), [exMethod ("B".data) ("Y".data)])] := by
  refine ⟨fun f templates extracted paper_title language => ?_,
    fun ms => ⟨groupByCategory_map_fst ms, groupByCategory_lookup ms⟩, by decide⟩
  rw [generate_eq_filterMap]
  rw [show (fun g : Str × List ComputationalMethod =>
        generate_category_script (fun p => Except.ok (f p)) templates g.1 g.2
          extracted paper_title language) =
      (fun g : Str × List ComputationalMethod =>
        some (parse_code_generation_result
          (f (create_code_generation_prompt g.1 g.2 extracted paper_title
            language (get_template_for_category templates g.1)))
          g.1 language)) from funext fun g => rfl]
  exact filterMap_some_fn _ _

/-- C3: per-category Gateway failures are omissions, not aborts — the
    output is exactly the per-category successes in group order, a
    category's script depends only on that category's own Gateway call, and
    an all-categories-failed run yields the empty sequence. -/
theorem claim3_partial_failure :
    (∀ (gw : Str → Except Str Str) (templates : List (Str × Str))
        (extracted : ExtractedMethods) (paper_title language : Str),
      generate_code_from_methods gw templates extracted paper_title language =
        (groupByCategory extracted.computational_methods).filterMap
          (fun g => generate_category_script gw templates g.1 g.2 extracted
            paper_title language)) ∧
    (∀ (gw gw' : Str → Except Str Str) (templates : List (Str × Str))
        (category : Str) (methods : List ComputationalMethod)
        (extracted : ExtractedMethods) (paper_title language : Str),
      gw (create_code_generation_prompt category methods extracted paper_title
          language (get_template_for_category templates category)) =
        gw' (create_code_generation_prompt category methods extracted
          paper_title language (get_template_for_category templates category)) →
      generate_category_script gw templates category methods extracted
          paper_title language =
        generate_category_script gw' templates category methods extracted
          paper_title language) ∧
    (∀ (gw : Str → Except Str Str) (templates : List (Str × Str))
        (extracted : ExtractedMethods) (paper_title language : Str),
      (∀ g ∈ groupByCategory extracted.computational_methods,
        generate_category_script gw templates g.1 g.2 extracted paper_title
          language = none) →
      generate_code_from_methods gw templates extracted paper_title
        language = []) := by
  refine ⟨generate_eq_filterMap,
    fun gw gw' templates category methods extracted paper_title language h => ?_,
    fun gw templates extracted paper_title language h => ?_⟩
  · unfold generate_category_script
    rw [h]
  · rw [generate_eq_filterMap]
    exact List.filterMap_eq_nil_iff.mpr h

/-- Witness for C3: the closed form applied at a concrete two-category
    extraction; an always-failing Gateway yields the empty sequence, and a
    category\x27s script is unchanged between two distinct Gateways that
    agree on its own call. -/
theorem claim3_witness :
    generate_code_from_methods (fun _ => Except.error ("down".data)) []
        (exExtracted [exMethod ("A".data) ("X".data),
          exMethod ("B".data) ("Y".data)]) ("t".data) ("python".data) = [] ∧
    generate_category_script (fun _ => Except.ok ("reply".data)) []
        ("X".data) [exMethod ("A".data) ("X".data)]
        (exExtracted [exMethod ("A".data) ("X".data),
          exMethod ("B".data) ("Y".data)]) ("t".data) ("python".data) =
      generate_category_script
        (fun p => if p.isEmpty then Except.error ("down".data)
          else Except.ok ("reply".data)) []
        ("X".data) [exMethod ("A".data) ("X".data)]
        (exExtracted [exMethod ("A".data) ("X".data),
          exMethod ("B".data) ("Y".data)]) ("t".data) ("python".data) := by
  refine ⟨claim3_partial_failure.2.2 _ _ _ _ _ (fun g _ => rfl),
    claim3_partial_failure.2.1 _ _ _ _ _ _ _ _ ?_⟩
  rw [show (create_code_generation_prompt ("X".data)
      [exMethod ("A".data) ("X".data)]
      (exExtracted [exMethod ("A".data) ("X".data),
        exMethod ("B".data) ("Y".data)]) ("t".data) ("python".data)
      (get_template_for_category [] ("X".data))).isEmpty = false from rfl]
  rfl

/-- C1 counterexample: the claim that a parse failure is not re-wrapped as
    an extraction failure is false.  On the brace-free reply `"hello"`,
    `extract_methods` raises the parse-failure message re-wrapped under the
    very same `"Failed to extract methods using Claude: "` wrapper that a
    failing Gateway call receives, because `_parse_extraction_result` is
    called inside the `try` block of `extract_methods`. -/
theorem claim1_counterexample :
    extract_methods (fun _ => Except.ok ("hello".data)) ("p".data) ("t".data) =
      Except.error (wrapMsg ++ msgNoJson) ∧
    wrapMsg <+: wrapMsg ++ msgNoJson ∧
    extract_methods (fun _ => Except.error ("api down".data)) ("p".data)
        ("t".data) =
      Except.error (wrapMsg ++ "api down".data) ∧
    wrapMsg <+: wrapMsg ++ "api down".data :=
  ⟨rfl, isPrefix_append_of _ _, rfl, isPrefix_append_of _ _⟩

/-- C1 (amended): on a successful Gateway call whose reply has no brace
    pair, or whose first-`{`-to-last-`}` substring is not valid JSON,
    `extract_methods` fails with a parse-flavoured error (message beginning
    `"Failed to parse"` under the wrapper), but that error is re-wrapped by
    the same extraction-failure wrapper applied to Gateway failures, so the
    two are distinguished only by the wrapped message text, not by the
    wrapper. -/
theorem claim1_parse_error_wrapped :
    ∀ (gw : Str → Except Str Str) (p t reply : Str),
      gw (extraction_prompt p t) = Except.ok reply →
      (jsonSub reply = none ∨
        ∃ sub, jsonSub reply = some sub ∧ jparse sub = none) →
      ∃ e, extract_methods gw p t = Except.error e ∧
        wrapMsg <+: e ∧ wrapMsg ++ "Failed to parse".data <+: e := by
  intro gw p t reply hgw hbad
  rcases hbad with hnone | ⟨sub, hsub, hparse⟩
  · refine ⟨wrapMsg ++ msgNoJson, ?_, isPrefix_append_of _ _,
      isPrefix_append_left wrapMsg
        ⟨" extraction result: No JSON found in response".data, rfl⟩⟩
    simp [extract_methods, hgw, parse_extraction_result, hnone]
  · refine ⟨wrapMsg ++ msgBadJson, ?_, isPrefix_append_of _ _,
      isPrefix_append_left wrapMsg ⟨" JSON response".data, rfl⟩⟩
    simp [extract_methods, hgw, parse_extraction_result, hsub, hparse]

/-- Witness for C1 (amended): a concrete brace-free reply and a concrete
    reply whose brace substring is not valid JSON both trigger the wrapped
    parse failure. -/
theorem claim1_witness :
    (∃ e, extract_methods (fun _ => Except.ok ("no braces here".data))
        ("p".data) ("t".data) = Except.error e ∧
      wrapMsg <+: e ∧ wrapMsg ++ "Failed to parse".data <+: e) ∧
    (∃ e, extract_methods (fun _ => Except.ok ("\x7b not json \x7d".data))
        ("p".data) ("t".data) = Except.error e ∧
      wrapMsg <+: e ∧ wrapMsg ++ "Failed to parse".data <+: e) :=
  ⟨claim1_parse_error_wrapped _ ("p".data) ("t".data) _ rfl
      (Or.inl (by decide)),
   claim1_parse_error_wrapped _ ("p".data) ("t".data) _ rfl
      (Or.inr ⟨("\x7b not json \x7d".data), by decide, rfl⟩)⟩

/-- C6: the code-generation parser is total and degrades gracefully — the
    script body comes from the fenced block tagged with the requested
    language, else from any fenced block, else it is the whole reply; a
    missing `DEPENDENCIES:` / `DESCRIPTION:` / `USAGE:` section defaults to
    the empty list / a category-derived description / a fixed fallback
    instruction. -/
theorem claim6_codegen_parse_total :
    ∀ (reply category language : Str),
      ((∀ c, scanFenced ("```".data ++ language) reply = some c →
        (parse_code_generation_result reply category language).script_content =
          pyStrip c) ∧
       (scanFenced ("```".data ++ language) reply = none →
        ∀ c, scanFenced ("```".data) reply = some c →
        (parse_code_generation_result reply category language).script_content =
          pyStrip c) ∧
       (scanFenced ("```".data ++ language) reply = none →
        scanFenced ("```".data) reply = none →
        (parse_code_generation_result reply category language).script_content =
          reply)) ∧
      (sectionText ("DEPENDENCIES:".data) (some ("DESCRIPTION:".data)) reply =
          none →
        (parse_code_generation_result reply category language).dependencies =
          []) ∧
      (sectionText ("DESCRIPTION:".data) (some ("USAGE:".data)) reply = none →
        (parse_code_generation_result reply category language).description =
          "Generated ".data ++ category ++ " analysis script".data) ∧
      (sectionText ("USAGE:".data) none reply = none →
        (parse_code_generation_result reply category
          language).usage_instructions =
          "Run the script with your data files".data) := by
  intro reply category language
  refine ⟨⟨fun c hc => ?_, fun hn c hc => ?_, fun hn hn2 => ?_⟩,
    fun hd => ?_, fun hd2 => ?_, fun hd3 => ?_⟩
  · unfold parse_code_generation_result
    rw [hc]
  · unfold parse_code_generation_result
    rw [hn, hc]
  · unfold parse_code_generation_result
    rw [hn, hn2]
  · simp [parse_code_generation_result, hd]
  · simp [parse_code_generation_result, hd2]
  · simp [parse_code_generation_result, hd3]

/-- Witness for C6: tagged-fence, untagged-fence and no-fence replies, plus
    the three section defaults on a label-free reply. -/
theorem claim6_witness :
    (parse_code_generation_result ("```python\ncode\n```".data) ("cat".data)
      ("python".data)).script_content = pyStrip ("\ncode\n".data) ∧
    (parse_code_generation_result ("```\ngen\n```".data) ("cat".data)
      ("python".data)).script_content = pyStrip ("\ngen\n".data) ∧
    (parse_code_generation_result ("plain".data) ("cat".data)
      ("python".data)).script_content = "plain".data ∧
    (parse_code_generation_result ("plain".data) ("cat".data)
      ("python".data)).dependencies = [] ∧
    (parse_code_generation_result ("plain".data) ("cat".data)
      ("python".data)).description =
      "Generated ".data ++ "cat".data ++ " analysis script".data ∧
    (parse_code_generation_result ("plain".data) ("cat".data)
      ("python".data)).usage_instructions =
      "Run the script with your data files".data :=
  ⟨(claim6_codegen_parse_total ("```python\ncode\n```".data) ("cat".data)
      ("python".data)).1.1 _ (by decide),
   (claim6_codegen_parse_total ("```\ngen\n```".data) ("cat".data)
      ("python".data)).1.2.1 (by decide) _ (by decide),
   (claim6_codegen_parse_total ("plain".data) ("cat".data)
      ("python".data)).1.2.2 (by decide) (by decide),
   (claim6_codegen_parse_total ("plain".data) ("cat".data)
      ("python".data)).2.1 (by decide),
   (claim6_codegen_parse_total ("plain".data) ("cat".data)
      ("python".data)).2.2.1 (by decide),
   (claim6_codegen_parse_total ("plain".data) ("cat".data)
      ("python".data)).2.2.2 (by decide)⟩

/-- C8: without loaded context, `ask_question` returns the fixed guidance
    string at once — the result is independent of the Gateway and the state
    (hence the history) is unchanged; with context loaded and the Gateway
    failing, it returns the `"Error processing question: "`-prefixed string
    instead of raising and again leaves the state unchanged. -/
theorem claim8_soft_fail :
    (∀ (gw gw' : Str → Except Str Str) (now : Str) (s : QAState)
        (question : Str),
      (s.paper_metadata = none ∨ s.extracted_methods = none) →
      ask_question gw now s question = (s, qaGuidance) ∧
      ask_question gw now s question = ask_question gw' now s question) ∧
    (∀ (gw : Str → Except Str Str) (now : Str) (s : QAState) (question : Str)
        (md : PaperMetadata) (er : ExtractedMethods) (e : Str),
      s.paper_metadata = some md → s.extracted_methods = some er →
      gw (create_qa_prompt md er s.conversation_history question) =
        Except.error e →
      ask_question gw now s question = (s, qaErrorMark ++ e)) := by
  constructor
  · intro gw gw' now s question hctx
    rcases hctx with hp | he
    · exact ⟨by simp [ask_question, hp], by simp [ask_question, hp]⟩
    · cases hp : s.paper_metadata with
      | none => exact ⟨by simp [ask_question, hp], by simp [ask_question, hp]⟩
      | some md =>
        exact ⟨by simp [ask_question, hp, he], by simp [ask_question, hp, he]⟩
  · intro gw now s question md er e hp he hg
    simp [ask_question, hp, he, hg]

/-- Witness for C8: a fresh engine returns the guidance string whatever the
    Gateway does; a context-loaded engine with a failing Gateway returns the
    error-prefixed string and keeps its (empty) history. -/
theorem claim8_witness :
    (ask_question (fun _ => Except.ok ("a".data)) ("n".data) emptyQAState
        ("q".data) = (emptyQAState, qaGuidance) ∧
      ask_question (fun _ => Except.ok ("a".data)) ("n".data) emptyQAState
          ("q".data) =
        ask_question (fun _ => Except.error ("x".data)) ("n".data) emptyQAState
          ("q".data)) ∧
    ask_question (fun _ => Except.error ("boom".data)) ("n".data)
        ⟨some exPaper, some (exExtracted []), []⟩ ("q".data) =
      (⟨some exPaper, some (exExtracted []), []⟩, qaErrorMark ++ "boom".data) :=
  ⟨claim8_soft_fail.1 _ _ ("n".data) emptyQAState ("q".data) (Or.inl rfl),
   claim8_soft_fail.2 _ ("n".data) _ ("q".data) exPaper (exExtracted []) _
     rfl rfl rfl⟩

/-- C2 counterexample: the history cap is not maintained by every operation
    of the engine — importing a conversation document holding 11 exchanges
    via `load_conversation` leaves the history at length 11. -/
theorem claim2_counterexample :
    (load_conversation emptyQAState (qaDoc 11)).map
      (fun s => s.conversation_history.length) = some 11 ∧ 10 < 11 :=
  ⟨rfl, by decide⟩

theorem take_append_absorb (n : Nat) (y x : List α) :
    List.take n (y ++ List.take n x) = List.take n (y ++ x) := by
  rw [List.take_append_eq_append_take, List.take_append_eq_append_take,
    List.take_take]
  have hmin : min (n - y.length) n = n - y.length :=
    Nat.min_eq_left (Nat.sub_le _ _)
  rw [hmin]

theorem lastN_append_absorb (n : Nat) (a b : List α) :
    lastN n (lastN n a ++ b) = lastN n (a ++ b) := by
  have hrt : ∀ l : List α, lastN n l = l.rtake n := fun _ => rfl
  simp only [hrt, List.rtake_eq_reverse_take_reverse, List.reverse_append,
    List.reverse_reverse]
  rw [take_append_absorb]

theorem add_to_history_lastN (hist : List QAExchange) (q a now : Str) :
    add_to_history hist q a now = lastN 10 (hist ++ [⟨q, a, now, contextTag⟩]) := by
  simp only [add_to_history, lastN]
  by_cases hl : (hist ++ [(⟨q, a, now, contextTag⟩ : QAExchange)]).length > 10
  · rw [if_pos hl]
  · rw [if_neg hl]
    have h0 : (hist ++ [(⟨q, a, now, contextTag⟩ : QAExchange)]).length - 10 = 0 := by
      simp only [List.length_append, List.length_cons, List.length_nil] at hl ⊢
      omega
    rw [h0, List.drop_zero]

theorem map_lastN (f : α → β) (n : Nat) (l : List α) :
    (lastN n l).map f = lastN n (l.map f) := by
  simp [lastN, List.map_drop, List.length_map]

theorem lastN_le_length (n : Nat) (l : List α) : (lastN n l).length ≤ n := by
  simp only [lastN, List.length_drop]
  omega

theorem askMany_proj (ansF : Str → Str) (md : PaperMetadata)
    (er : ExtractedMethods) :
    ∀ (calls : List (Str × Str)) (hist : List QAExchange),
      hist.length ≤ 10 →
      (askMany (fun p => Except.ok (ansF p)) calls
          ⟨some md, some er, hist⟩).conversation_history.map
        (fun e => (e.question, e.timestamp)) =
      lastN 10 (hist.map (fun e => (e.question, e.timestamp)) ++ calls) := by
  intro calls
  induction calls with
  | nil =>
    intro hist hh
    show hist.map _ = lastN 10 (hist.map (fun e => (e.question, e.timestamp)) ++ [])
    rw [List.append_nil]
    unfold lastN
    rw [show (hist.map (fun e : QAExchange => (e.question, e.timestamp))).length
        - 10 = 0 from by rw [List.length_map]; omega, List.drop_zero]
  | cons c rest ih =>
    intro hist hh
    have hstep : askMany (fun p => Except.ok (ansF p)) (c :: rest)
        ⟨some md, some er, hist⟩ =
      askMany (fun p => Except.ok (ansF p)) rest
        ⟨some md, some er, add_to_history hist c.1
          (ansF (create_qa_prompt md er hist c.1)) c.2⟩ := rfl
    have hlen : (add_to_history hist c.1
        (ansF (create_qa_prompt md er hist c.1)) c.2).length ≤ 10 := by
      rw [add_to_history_lastN]
      exact lastN_le_length _ _
    rw [hstep, ih _ hlen, add_to_history_lastN, map_lastN, List.map_append]
    rw [show (([⟨c.1, ansF (create_qa_prompt md er hist c.1), c.2,
        contextTag⟩] : List QAExchange).map (fun e => (e.question, e.timestamp)))
      = [c] from rfl]
    rw [lastN_append_absorb, List.append_assoc, List.singleton_append]

/-- C2 (amended): the `ask` path does maintain the cap — a successful ask
    appends and evicts down to the 10 most recent, so after 11 sequential
    successful asks the history has length 10 and starts with the 2nd
    question's exchange; but `load_conversation` installs the imported
    document's history verbatim, so an import can exceed 10 (see the
    counterexample). -/
theorem claim2_history_cap :
    (∀ (ansF : Str → Str) (q ts : Nat → Str) (md : PaperMetadata)
        (er : ExtractedMethods),
      (askMany (fun p => Except.ok (ansF p))
          ((List.range 11).map (fun i => (q i, ts i)))
          ⟨some md, some er, []⟩).conversation_history.length = 10 ∧
      (askMany (fun p => Except.ok (ansF p))
          ((List.range 11).map (fun i => (q i, ts i)))
          ⟨some md, some er, []⟩).conversation_history.map
            (fun e => (e.question, e.timestamp)) =
        (List.range 10).map (fun i => (q (i + 1), ts (i + 1)))) ∧
    (∀ (gw : Str → Except Str Str) (now : Str) (s : QAState) (question : Str),
      ((ask_question gw now s question).1).conversation_history.length ≤
        max s.conversation_history.length 10) := by
  constructor
  · intro ansF q ts md er
    have hm := askMany_proj ansF md er
      ((List.range 11).map (fun i => (q i, ts i))) [] (by simp)
    refine ⟨?_, hm.trans rfl⟩
    have hlen := congrArg List.length hm
    rw [List.length_map] at hlen
    exact hlen.trans rfl
  · intro gw now s question
    cases hp : s.paper_metadata with
    | none => simp [ask_question, hp]
    | some md =>
      cases he : s.extracted_methods with
      | none => simp [ask_question, hp, he]
      | some er =>
        cases hg : gw (create_qa_prompt md er s.conversation_history question)
          with
        | error e => simp [ask_question, hp, he, hg]
        | ok ans =>
          simp only [ask_question, hp, he, hg, add_to_history]
          split <;> rename_i hcond <;>
            simp only [List.length_drop, List.length_append, List.length_cons,
              List.length_nil, Nat.not_lt] at hcond ⊢ <;> omega

/-- C10: `get_conversation_history` hands out a copy — under the reference
    heap, the copy is a fresh cell distinct from the engine's, it holds the
    same contents, and any mutation through the returned reference leaves
    both the engine's history and the prompt a subsequent ask would build
    unchanged. -/
theorem claim10_history_is_copy :
    ∀ (h : HistHeap) (engineRef : Nat) (md : PaperMetadata)
      (er : ExtractedMethods) (question : Str)
      (f : List QAExchange → List QAExchange),
      engineRef < h.next →
      (heapCopyHistory h engineRef).2 ≠ engineRef ∧
      (heapCopyHistory h engineRef).1.store (heapCopyHistory h engineRef).2 =
        h.store engineRef ∧
      (heapWrite (heapCopyHistory h engineRef).1
          (heapCopyHistory h engineRef).2
          (f ((heapCopyHistory h engineRef).1.store
            (heapCopyHistory h engineRef).2))).store engineRef =
        h.store engineRef ∧
      create_qa_prompt md er
          ((heapWrite (heapCopyHistory h engineRef).1
            (heapCopyHistory h engineRef).2
            (f ((heapCopyHistory h engineRef).1.store
              (heapCopyHistory h engineRef).2))).store engineRef) question =
        create_qa_prompt md er (h.store engineRef) question := by
  intro h engineRef md er question f hlt
  have hne : engineRef ≠ h.next := Nat.ne_of_lt hlt
  have hstore : (heapWrite (heapCopyHistory h engineRef).1
      (heapCopyHistory h engineRef).2
      (f ((heapCopyHistory h engineRef).1.store
        (heapCopyHistory h engineRef).2))).store engineRef =
      h.store engineRef := by
    simp [heapWrite, heapCopyHistory, hne]
  exact ⟨fun hc => hne hc.symm, by simp [heapCopyHistory], hstore,
    by rw [hstore]⟩

/-- Witness for C10: on a one-cell heap, appending an exchange to the
    returned copy leaves the engine's (empty) history as it was. -/
theorem claim10_witness :
    (heapWrite (heapCopyHistory ⟨fun _ => [], 1⟩ 0).1
        (heapCopyHistory ⟨fun _ => [], 1⟩ 0).2
        ((fun l => l ++ [⟨"q".data, "a".data, "t".data, "c".data⟩])
          ((heapCopyHistory ⟨fun _ => [], 1⟩ 0).1.store
            (heapCopyHistory ⟨fun _ => [], 1⟩ 0).2))).store 0 =
      (⟨fun _ => [], 1⟩ : HistHeap).store 0 :=
  (claim10_history_is_copy ⟨fun _ => [], 1⟩ 0 exPaper (exExtracted [])
    ("q".data) (fun l => l ++ [⟨"q".data, "a".data, "t".data, "c".data⟩])
    (by decide)).2.2.1

/-- C4 counterexample: the claim fails as stated, because it quantifies over
    every reply with a missing top-level key — a reply whose present
    `datasets` key holds a malformed item (here missing `description`,
    `source` and `format`) omits four keys yet makes the extraction fail
    rather than default. -/
theorem claim4_counterexample :
    jsonSub ("\x7b\"datasets\": [\x7b\"name\": \"d\"\x7d]\x7d".data) =
      some ("\x7b\"datasets\": [\x7b\"name\": \"d\"\x7d]\x7d".data) ∧
    jparse ("\x7b\"datasets\": [\x7b\"name\": \"d\"\x7d]\x7d".data) =
      some (J.obj [("datasets".data,
        J.arr [J.obj [("name".data, J.s ("d".data))]])]) ∧
    lookupJ [("datasets".data,
        J.arr [J.obj [("name".data, J.s ("d".data))]])]
      ("computational_methods".data) = none ∧
    extract_methods
        (fun _ => Except.ok ("\x7b\"datasets\": [\x7b\"name\": \"d\"\x7d]\x7d".data))
        ("p".data) ("t".data) =
      Except.error (wrapMsg ++ msgBadShape) :=
  ⟨rfl, rfl, rfl, rfl⟩

/-- C4 (amended): for every Gateway reply whose embedded JSON object parses
    successfully, omits one or more of the five top-level keys, and whose
    present keys hold well-formed values, extractMethods succeeds; each
    missing sequence key is the empty sequence, a missing
    reproducibility_notes is the empty string, and each present key
    contributes exactly its parsed value. -/
theorem claim4_missing_keys_default :
    ∀ (gw : Str → Except Str Str) (p t reply sub : Str)
      (kvs : List (Str × J)),
      gw (extraction_prompt p t) = Except.ok reply →
      jsonSub reply = some sub →
      jparse sub = some (J.obj kvs) →
      (lookupJ kvs ("computational_methods".data) = none ∨
       lookupJ kvs ("datasets".data) = none ∨
       lookupJ kvs ("workflows".data) = none ∨
       lookupJ kvs ("key_findings".data) = none ∨
       lookupJ kvs ("reproducibility_notes".data) = none) →
      (∀ v, lookupJ kvs ("computational_methods".data) = some v →
        (parseItemList mkComputationalMethod v).isSome) →
      (∀ v, lookupJ kvs ("datasets".data) = some v →
        (parseItemList mkDataset v).isSome) →
      (∀ v, lookupJ kvs ("workflows".data) = some v →
        (parseItemList mkWorkflow v).isSome) →
      (∀ v, lookupJ kvs ("key_findings".data) = some v →
        (jStrList? v).isSome) →
      (∀ v, lookupJ kvs ("reproducibility_notes".data) = some v →
        (jStr? v).isSome) →
      ∃ r, extract_methods gw p t = Except.ok r ∧
        (lookupJ kvs ("computational_methods".data) = none →
          r.computational_methods = []) ∧
        (lookupJ kvs ("datasets".data) = none → r.datasets = []) ∧
        (lookupJ kvs ("workflows".data) = none → r.workflows = []) ∧
        (lookupJ kvs ("key_findings".data) = none → r.key_findings = []) ∧
        (lookupJ kvs ("reproducibility_notes".data) = none →
          r.reproducibility_notes = []) ∧
        (∀ v l, lookupJ kvs ("computational_methods".data) = some v →
          parseItemList mkComputationalMethod v = some l →
          r.computational_methods = l) ∧
        (∀ v l, lookupJ kvs ("datasets".data) = some v →
          parseItemList mkDataset v = some l → r.datasets = l) ∧
        (∀ v l, lookupJ kvs ("workflows".data) = some v →
          parseItemList mkWorkflow v = some l → r.workflows = l) ∧
        (∀ v l, lookupJ kvs ("key_findings".data) = some v →
          jStrList? v = some l → r.key_findings = l) ∧
        (∀ v l, lookupJ kvs ("reproducibility_notes".data) = some v →
          jStr? v = some l → r.reproducibility_notes = l) := by
  intro gw p t reply sub kvs hgw hsub hparse _hmiss h1 h2 h3 h4 h5
  obtain ⟨cm, hcm1, hcm2, hcm3⟩ := field_resolve
    (parseItemList mkComputationalMethod) [] (J.arr []) kvs
    ("computational_methods".data) rfl h1
  obtain ⟨ds, hds1, hds2, hds3⟩ := field_resolve (parseItemList mkDataset) []
    (J.arr []) kvs ("datasets".data) rfl h2
  obtain ⟨wf, hwf1, hwf2, hwf3⟩ := field_resolve (parseItemList mkWorkflow) []
    (J.arr []) kvs ("workflows".data) rfl h3
  obtain ⟨kf, hkf1, hkf2, hkf3⟩ := field_resolve jStrList? [] (J.arr []) kvs
    ("key_findings".data) rfl h4
  obtain ⟨rn, hrn1, hrn2, hrn3⟩ := field_resolve jStr? [] (J.s []) kvs
    ("reproducibility_notes".data) rfl h5
  refine ⟨⟨cm, ds, wf, kf, rn⟩, ?_, hcm2, hds2, hwf2, hkf2, hrn2, hcm3, hds3,
    hwf3, hkf3, hrn3⟩
  simp only [extract_methods, hgw, parse_extraction_result, hsub, hparse]
  simp [parse_fields, hcm1, hds1, hwf1, hkf1, hrn1]

/-- Witness for C4 (amended): a reply supplying only `key_findings` yields a
    result whose other four fields are the defaults and whose
    `key_findings` is the parsed list. -/
theorem claim4_witness :
    ∃ r, extract_methods
        (fun _ => Except.ok ("\x7b\"key_findings\": [\"f\"]\x7d".data))
        ("p".data) ("t".data) = Except.ok r ∧
      r.computational_methods = [] ∧ r.datasets = [] ∧ r.workflows = [] ∧
      r.key_findings = [("f".data)] ∧ r.reproducibility_notes = [] := by
  obtain ⟨r, hr, m1, m2, m3, _m4, m5, _p1, _p2, _p3, p4, _p5⟩ :=
    claim4_missing_keys_default
      (fun _ => Except.ok ("\x7b\"key_findings\": [\"f\"]\x7d".data))
      ("p".data) ("t".data) ("\x7b\"key_findings\": [\"f\"]\x7d".data)
      ("\x7b\"key_findings\": [\"f\"]\x7d".data)
      [("key_findings".data, J.arr [J.s ("f".data)])]
      rfl rfl rfl (Or.inl rfl)
      (fun v hv => Option.noConfusion hv)
      (fun v hv => Option.noConfusion hv)
      (fun v hv => Option.noConfusion hv)
      (fun v hv => by cases hv; rfl)
      (fun v hv => Option.noConfusion hv)
  exact ⟨r, hr, m1 rfl, m2 rfl, m3 rfl, p4 _ _ rfl rfl, m5 rfl⟩

/-- C9: keyword construction of the extracted items is strict on field
    names — a dataset item with exactly the four other declared fields gets
    `size = none`; omitting any other declared field of a method, dataset
    or workflow item, or supplying an undeclared field, fails the
    construction; and a failing item fails the whole extraction. -/
theorem claim9_item_strictness :
    (∀ n d so fo : Str,
      mkDataset (J.obj [("name".data, J.s n), ("description".data, J.s d),
        ("source".data, J.s so), ("format".data, J.s fo)]) =
        some ⟨n, d, so, fo, none⟩) ∧
    (∀ (kvs : List (Str × J)) (k : Str), k ∈ dsRequired →
      ¬ k ∈ keysOf kvs → mkDataset (J.obj kvs) = none) ∧
    (∀ (kvs : List (Str × J)) (k : Str), k ∈ cmKeys →
      ¬ k ∈ keysOf kvs → mkComputationalMethod (J.obj kvs) = none) ∧
    (∀ (kvs : List (Str × J)) (k : Str), k ∈ wfKeys →
      ¬ k ∈ keysOf kvs → mkWorkflow (J.obj kvs) = none) ∧
    (∀ (kvs : List (Str × J)) (k : Str), k ∈ keysOf kvs →
      ¬ k ∈ dsKeys → mkDataset (J.obj kvs) = none) ∧
    (∀ (kvs : List (Str × J)) (k : Str), k ∈ keysOf kvs →
      ¬ k ∈ cmKeys → mkComputationalMethod (J.obj kvs) = none) ∧
    (∀ (kvs : List (Str × J)) (k : Str), k ∈ keysOf kvs →
      ¬ k ∈ wfKeys → mkWorkflow (J.obj kvs) = none) ∧
    (∀ (gw : Str → Except Str Str) (p t reply sub : Str)
        (kvs : List (Str × J)) (v : J),
      gw (extraction_prompt p t) = Except.ok reply →
      jsonSub reply = some sub →
      jparse sub = some (J.obj kvs) →
      ((lookupJ kvs ("computational_methods".data) = some v ∧
          parseItemList mkComputationalMethod v = none) ∨
       (lookupJ kvs ("datasets".data) = some v ∧
          parseItemList mkDataset v = none) ∨
       (lookupJ kvs ("workflows".data) = some v ∧
          parseItemList mkWorkflow v = none)) →
      ∃ e, extract_methods gw p t = Except.error e) := by
  refine ⟨fun n d so fo => rfl,
    fun kvs k hk hnk => ?_, fun kvs k hk hnk => ?_, fun kvs k hk hnk => ?_,
    fun kvs k hk hna => ?_, fun kvs k hk hna => ?_, fun kvs k hk hna => ?_,
    ?_⟩
  · simp [mkDataset, kwShapeOk_false_of_missing kvs dsKeys dsRequired k hk hnk]
  · simp [mkComputationalMethod,
      kwShapeOk_false_of_missing kvs cmKeys cmKeys k hk hnk]
  · simp [mkWorkflow, kwShapeOk_false_of_missing kvs wfKeys wfKeys k hk hnk]
  · simp [mkDataset, kwShapeOk_false_of_extra kvs dsKeys dsRequired k hk hna]
  · simp [mkComputationalMethod,
      kwShapeOk_false_of_extra kvs cmKeys cmKeys k hk hna]
  · simp [mkWorkflow, kwShapeOk_false_of_extra kvs wfKeys wfKeys k hk hna]
  · intro gw p t reply sub kvs v hgw hsub hparse hbad
    refine ⟨wrapMsg ++ msgBadShape, ?_⟩
    simp only [extract_methods, hgw, parse_extraction_result, hsub, hparse]
    suffices hpf : parse_fields kvs = none by simp [hpf]
    rcases hbad with ⟨hv, hn⟩ | ⟨hv, hn⟩ | ⟨hv, hn⟩
    · simp [parse_fields, lookupD, hv, hn]
    · cases hcm : parseItemList mkComputationalMethod
        (lookupD kvs ("computational_methods".data) (J.arr [])) with
      | none => simp [parse_fields, hcm]
      | some cm => simp [parse_fields, hcm, lookupD, hv, hn]
    · cases hcm : parseItemList mkComputationalMethod
        (lookupD kvs ("computational_methods".data) (J.arr [])) with
      | none => simp [parse_fields, hcm]
      | some cm =>
        cases hds : parseItemList mkDataset
            (lookupD kvs ("datasets".data) (J.arr [])) with
        | none => simp [parse_fields, hcm, hds]
        | some ds => simp [parse_fields, hcm, hds, lookupD, hv, hn]

/-- Witness for C9: the size-less dataset object constructs with
    `size = none`; dropping `source` or adding a `bogus` field fails; a
    reply whose `datasets` list holds an empty object fails the whole
    extraction. -/
theorem claim9_witness :
    mkDataset (J.obj [("name".data, J.s ("n".data)),
        ("description".data, J.s ("d".data)),
        ("source".data, J.s ("s".data)),
        ("format".data, J.s ("f".data))]) =
      some ⟨("n".data), ("d".data), ("s".data), ("f".data), none⟩ ∧
    mkDataset (J.obj [("name".data, J.s ("n".data))]) = none ∧
    mkDataset (J.obj [("name".data, J.s ("n".data)),
        ("description".data, J.s ("d".data)),
        ("source".data, J.s ("s".data)),
        ("format".data, J.s ("f".data)),
        ("bogus".data, J.null)]) = none ∧
    mkComputationalMethod (J.obj [("bogus".data, J.null)]) = none ∧
    mkWorkflow (J.obj [("name".data, J.s ("n".data))]) = none ∧
    (∃ e, extract_methods
        (fun _ => Except.ok ("\x7b\"datasets\": [\x7b\x7d]\x7d".data))
        ("p".data) ("t".data) = Except.error e) :=
  ⟨claim9_item_strictness.1 ("n".data) ("d".data) ("s".data) ("f".data),
   claim9_item_strictness.2.1 _ ("source".data) (by decide) (by decide),
   claim9_item_strictness.2.2.2.2.1 _ ("bogus".data) (by decide) (by decide),
   claim9_item_strictness.2.2.2.2.2.1 _ ("bogus".data) (by decide) (by decide),
   claim9_item_strictness.2.2.2.1 _ ("steps".data) (by decide) (by decide),
   claim9_item_strictness.2.2.2.2.2.2.2 _ ("p".data) ("t".data) _ _
     [("datasets".data, J.arr [J.obj []])] (J.arr [J.obj []]) rfl rfl rfl
     (Or.inr (Or.inl ⟨rfl, rfl⟩))⟩

end BioLit
